import Mathlib

/-!
# Volume and volume-mount construction (controllers/datadogagent/object/volume/volumes.go)

Shallow embedding of the Go package `volume`.

Conventions of the embedding:

* a Go pointer `*T` is an `Option T` (`none` is the nil pointer);
* a Go function that can dereference a nil pointer returns `Option`:
  `none` is the run-time panic, `some r` is a normal return of `r`;
* a Go function without any dereference of a possibly-nil pointer returns its result directly;
* struct fields that the package never sets keep their Go zero value
  (`""`, `false`, `[]`, nil).
-/

namespace volume

/-! ## Data model (k8s.io/api/core/v1 and apis/datadoghq/common/v1) -/

/-- Go `corev1.KeyToPath`: maps a key of a config map to a relative path. -/
structure KeyToPath where
  Key : String := ""
  Path : String := ""
  Mode : Option Int := none
  deriving DecidableEq, Repr

/-- Go `apicommonv1.ConfigMapConfig`: a reference to a config map, with optional items. -/
structure ConfigMapConfig where
  Name : String := ""
  Items : List KeyToPath := []
  deriving DecidableEq, Repr

/-- Go `apicommonv1.CustomConfig`: inline data and/or a reference to a config map. -/
structure CustomConfig where
  ConfigData : Option String := none
  ConfigMap : Option ConfigMapConfig := none
  deriving DecidableEq, Repr

/-- Go `corev1.HostPathVolumeSource`; the Go field `Type` is `Type_` here, `Type` being a
keyword. -/
structure HostPathVolumeSource where
  Path : String := ""
  Type_ : Option String := none
  deriving DecidableEq, Repr

/-- Go `corev1.EmptyDirVolumeSource`. -/
structure EmptyDirVolumeSource where
  Medium : String := ""
  SizeLimit : Option String := none
  deriving DecidableEq, Repr

/-- Go `corev1.LocalObjectReference`. -/
structure LocalObjectReference where
  Name : String := ""
  deriving DecidableEq, Repr

/-- Go `corev1.ConfigMapVolumeSource`. -/
structure ConfigMapVolumeSource where
  LocalObjectReference : LocalObjectReference := {}
  Items : List KeyToPath := []
  DefaultMode : Option Int := none
  Optional : Option Bool := none
  deriving DecidableEq, Repr

/-- Go `corev1.VolumeSource`, restricted to the three pointer fields this package ever sets;
every other field of the Go struct stays nil in every volume built here. -/
structure VolumeSource where
  HostPath : Option HostPathVolumeSource := none
  EmptyDir : Option EmptyDirVolumeSource := none
  ConfigMap : Option ConfigMapVolumeSource := none
  deriving DecidableEq, Repr

/-- Go `corev1.Volume`. -/
structure Volume where
  Name : String := ""
  VolumeSource : VolumeSource := {}
  deriving DecidableEq, Repr

/-- Go `corev1.VolumeMount`. -/
structure VolumeMount where
  Name : String := ""
  ReadOnly : Bool := false
  MountPath : String := ""
  SubPath : String := ""
  MountPropagation : Option String := none
  SubPathExpr : String := ""
  deriving DecidableEq, Repr

/-- Go `fmt.Sprintf("%s%s/%s", a, b, c)` on three strings. -/
def sprintfConfdPath (a b c : String) : String :=
  a ++ b ++ "/" ++ c

/-! ## Operations -/

/-- Go `GetVolumes`: a host-path volume and its mount. -/
def GetVolumes (volumeName hostPath mountPath : String) (readOnly : Bool) :
    Volume × VolumeMount :=
  let volume : Volume :=
    { Name := volumeName
      VolumeSource := { HostPath := some { Path := hostPath } } }
  let volumeMount : VolumeMount :=
    { Name := volumeName
      MountPath := mountPath
      ReadOnly := readOnly }
  (volume, volumeMount)

/-- Go `GetVolumesEmptyDir`: an empty-dir volume and its mount. -/
def GetVolumesEmptyDir (volumeName mountPath : String) (readOnly : Bool) :
    Volume × VolumeMount :=
  let volume : Volume :=
    { Name := volumeName
      VolumeSource := { EmptyDir := some {} } }
  let volumeMount : VolumeMount :=
    { Name := volumeName
      MountPath := mountPath
      ReadOnly := readOnly }
  (volume, volumeMount)

/-- Go `buildVolumeSourceFromConfigMapConfig`. The Go function returns the address of a fresh
struct, so the returned pointer is never nil: the result is always `some`. -/
def buildVolumeSourceFromConfigMapConfig (configMap : Option ConfigMapConfig)
    (defaultConfigMapName : String) : Option VolumeSource :=
  let cmName : String :=
    match configMap with
    | some cm => if cm.Name.length > 0 then cm.Name else defaultConfigMapName
    | none => defaultConfigMapName
  let cmSource : ConfigMapVolumeSource :=
    { LocalObjectReference := { Name := cmName } }
  some { ConfigMap := some cmSource }

/-- Go `buildVolumeSourceFromCustomConfigSpec`: nil for a nil custom config. -/
def buildVolumeSourceFromCustomConfigSpec (configDir : Option CustomConfig)
    (defaultConfigMapName : String) : Option VolumeSource :=
  match configDir with
  | none => none
  | some cd => buildVolumeSourceFromConfigMapConfig cd.ConfigMap defaultConfigMapName

/-- Go `GetVolumeFromCustomConfigSpec`. The first statement dereferences the pointer returned by
`buildVolumeSourceFromCustomConfigSpec`; a nil pointer there is a panic (`none`). -/
def GetVolumeFromCustomConfigSpec (cfcm : Option CustomConfig)
    (defaultConfigMapName volumeName : String) : Option Volume :=
  match buildVolumeSourceFromCustomConfigSpec cfcm defaultConfigMapName with
  | none => none
  | some confdVolumeSource =>
    some { Name := volumeName, VolumeSource := confdVolumeSource }

/-- Go `GetVolumeMountFromCustomConfigSpec`. The condition reads `cfcm.ConfigMap`, which
dereferences `cfcm`; with a nil `cfcm` that is a panic (`none`). -/
def GetVolumeMountFromCustomConfigSpec (cfcm : Option CustomConfig)
    (volumeName volumePath defaultSubPath : String) : Option VolumeMount :=
  match cfcm with
  | none => none
  | some cc =>
    let subPath : String :=
      match cc.ConfigMap with
      | some cm =>
        if h : cm.Items.length > 0 then (cm.Items.get ⟨0, h⟩).Path else defaultSubPath
      | none => defaultSubPath
    some { Name := volumeName
           MountPath := volumePath
           SubPath := subPath
           ReadOnly := true }

/-- Go `GetVolumeFromConfigMapConfig`. Dereferences the pointer returned by
`buildVolumeSourceFromConfigMapConfig`. -/
def GetVolumeFromConfigMapConfig (configMap : Option ConfigMapConfig)
    (defaultConfigMapName volumeName : String) : Option Volume :=
  match buildVolumeSourceFromConfigMapConfig configMap defaultConfigMapName with
  | none => none
  | some confdVolumeSource =>
    some { Name := volumeName, VolumeSource := confdVolumeSource }

/-- Go `GetVolumeMountFromConfigMapConfig`. The nil test guards every use of `configMap`. -/
def GetVolumeMountFromConfigMapConfig (configMap : Option ConfigMapConfig)
    (volumeName volumePath defaultSubPath : String) : VolumeMount :=
  let subPath : String :=
    match configMap with
    | some cm =>
      if h : cm.Items.length > 0 then (cm.Items.get ⟨0, h⟩).Path else defaultSubPath
    | none => defaultSubPath
  { Name := volumeName
    MountPath := volumePath
    SubPath := subPath
    ReadOnly := true }

/-- Go `GetCustomConfigSpecVolumes`. The constants `apicommon.ConfigVolumePath` and
`apicommon.ConfdVolumePath` are declared in another package; they are the first two
parameters here. -/
def GetCustomConfigSpecVolumes (ConfigVolumePath ConfdVolumePath : String)
    (customConfig : Option CustomConfig)
    (volumeName defaultCMName configFolder : String) : Option (Volume × VolumeMount) :=
  match customConfig with
  | some _ =>
    match GetVolumeFromCustomConfigSpec customConfig defaultCMName volumeName with
    | none => none
    | some volume =>
      match GetVolumeMountFromCustomConfigSpec customConfig volumeName
          (sprintfConfdPath ConfigVolumePath ConfdVolumePath configFolder) "" with
      | none => none
      | some volumeMount => some (volume, volumeMount)
  | none =>
    let volume : Volume :=
      { Name := volumeName
        VolumeSource :=
          { ConfigMap := some { LocalObjectReference := { Name := defaultCMName } } } }
    let volumeMount : VolumeMount :=
      { Name := volumeName
        MountPath := sprintfConfdPath ConfigVolumePath ConfdVolumePath configFolder
        ReadOnly := true }
    some (volume, volumeMount)

/-- Go `GetConfigMapVolumes`. -/
def GetConfigMapVolumes (configMap : Option ConfigMapConfig)
    (defaultCMName volumeName volumePath : String) : Option (Volume × VolumeMount) :=
  match GetVolumeFromConfigMapConfig configMap defaultCMName volumeName with
  | none => none
  | some volume =>
    let volumeMount := GetVolumeMountFromConfigMapConfig configMap volumeName volumePath ""
    some (volume, volumeMount)

/-- The config map name carried by a volume, when its source is a config map projection. -/
def configMapNameOf (v : Volume) : Option String :=
  v.VolumeSource.ConfigMap.map (fun s => s.LocalObjectReference.Name)

/-- Number of the source variants `HostPath`, `EmptyDir`, `ConfigMap` that are set (non-nil)
in a volume source. -/
def populatedSources (s : VolumeSource) : Nat :=
  (if s.HostPath.isSome then 1 else 0) + (if s.EmptyDir.isSome then 1 else 0)
    + (if s.ConfigMap.isSome then 1 else 0)

/-! ## Auxiliary facts -/

/-- The Go test `len(s) > 0` holds exactly for the strings other than `""`. -/
theorem string_length_pos_iff (s : String) : s.length > 0 ↔ s ≠ "" := by
  rw [ne_eq, String.ext_iff]
  show s.data.length > 0 ↔ ¬ s.data = []
  cases s.data <;> simp

/-- The pointer returned by `buildVolumeSourceFromConfigMapConfig` is never nil, and the
struct it points to has only its `ConfigMap` field set, with no items copied. -/
theorem buildVolumeSourceFromConfigMapConfig_some (configMap : Option ConfigMapConfig)
    (d : String) :
    ∃ n : String,
      buildVolumeSourceFromConfigMapConfig configMap d
        = some { ConfigMap := some { LocalObjectReference := { Name := n } } } ∧
      n = (match configMap with
           | some cm => if cm.Name ≠ "" then cm.Name else d
           | none => d) := by
  cases configMap with
  | none => exact ⟨d, rfl, rfl⟩
  | some cm =>
    by_cases hn : cm.Name = ""
    · refine ⟨d, ?_, by simp [hn]⟩
      have h0 : ¬ cm.Name.length > 0 := fun h => (string_length_pos_iff _).1 h hn
      simp [buildVolumeSourceFromConfigMapConfig, h0]
    · refine ⟨cm.Name, ?_, by simp [hn]⟩
      have h0 : cm.Name.length > 0 := (string_length_pos_iff _).2 hn
      simp [buildVolumeSourceFromConfigMapConfig, h0]

/-- The sub-path chosen for a config map: the first item-s path when there is an item, the
default otherwise. This is the `let subPath` of both mount builders, in closed form. -/
theorem subPath_cases (cm : ConfigMapConfig) (d : String) :
    (if h : cm.Items.length > 0 then (cm.Items.get ⟨0, h⟩).Path else d)
      = (match cm.Items with
         | [] => d
         | it :: _ => it.Path) := by
  cases hI : cm.Items with
  | nil => simp
  | cons it rest => simp

/-- On a non-nil custom config the mount builder is the config-map mount builder applied to
the `ConfigMap` field. -/
theorem GetVolumeMountFromCustomConfigSpec_some (cc : CustomConfig)
    (volumeName volumePath defaultSubPath : String) :
    GetVolumeMountFromCustomConfigSpec (some cc) volumeName volumePath defaultSubPath
      = some (GetVolumeMountFromConfigMapConfig cc.ConfigMap volumeName volumePath
          defaultSubPath) := by
  rfl

/-- Closed form of `GetVolumeFromConfigMapConfig`: it always returns. -/
theorem GetVolumeFromConfigMapConfig_some (configMap : Option ConfigMapConfig)
    (d volumeName : String) :
    ∃ n : String,
      GetVolumeFromConfigMapConfig configMap d volumeName
        = some { Name := volumeName
                 VolumeSource :=
                   { ConfigMap := some { LocalObjectReference := { Name := n } } } } ∧
      n = (match configMap with
           | some cm => if cm.Name ≠ "" then cm.Name else d
           | none => d) := by
  obtain ⟨n, hb, hn⟩ := buildVolumeSourceFromConfigMapConfig_some configMap d
  exact ⟨n, by simp [GetVolumeFromConfigMapConfig, hb], hn⟩

/-- Closed form of `GetVolumeFromCustomConfigSpec` on a non-nil custom config. -/
theorem GetVolumeFromCustomConfigSpec_some (cc : CustomConfig) (d volumeName : String) :
    ∃ n : String,
      GetVolumeFromCustomConfigSpec (some cc) d volumeName
        = some { Name := volumeName
                 VolumeSource :=
                   { ConfigMap := some { LocalObjectReference := { Name := n } } } } ∧
      n = (match cc.ConfigMap with
           | some cm => if cm.Name ≠ "" then cm.Name else d
           | none => d) := by
  obtain ⟨n, hb, hn⟩ := buildVolumeSourceFromConfigMapConfig_some cc.ConfigMap d
  exact ⟨n, by simp [GetVolumeFromCustomConfigSpec, buildVolumeSourceFromCustomConfigSpec, hb],
    hn⟩

/-- Closed form of `GetConfigMapVolumes`: it always returns. -/
theorem GetConfigMapVolumes_some (configMap : Option ConfigMapConfig)
    (d volumeName volumePath : String) :
    ∃ n : String,
      GetConfigMapVolumes configMap d volumeName volumePath
        = some ({ Name := volumeName
                  VolumeSource :=
                    { ConfigMap := some { LocalObjectReference := { Name := n } } } },
                GetVolumeMountFromConfigMapConfig configMap volumeName volumePath "") ∧
      n = (match configMap with
           | some cm => if cm.Name ≠ "" then cm.Name else d
           | none => d) := by
  obtain ⟨n, hv, hn⟩ := GetVolumeFromConfigMapConfig_some configMap d volumeName
  exact ⟨n, by simp [GetConfigMapVolumes, hv], hn⟩

/-- Closed form of `GetCustomConfigSpecVolumes` on a non-nil custom config. -/
theorem GetCustomConfigSpecVolumes_some (ConfigVolumePath ConfdVolumePath : String)
    (cc : CustomConfig) (volumeName d configFolder : String) :
    ∃ n : String,
      GetCustomConfigSpecVolumes ConfigVolumePath ConfdVolumePath (some cc)
          volumeName d configFolder
        = some ({ Name := volumeName
                  VolumeSource :=
                    { ConfigMap := some { LocalObjectReference := { Name := n } } } },
                GetVolumeMountFromConfigMapConfig cc.ConfigMap volumeName
                  (ConfigVolumePath ++ ConfdVolumePath ++ "/" ++ configFolder) "") ∧
      n = (match cc.ConfigMap with
           | some cm => if cm.Name ≠ "" then cm.Name else d
           | none => d) := by
  obtain ⟨n, hv, hn⟩ := GetVolumeFromCustomConfigSpec_some cc d volumeName
  refine ⟨n, ?_, hn⟩
  simp [GetCustomConfigSpecVolumes, hv, GetVolumeMountFromCustomConfigSpec_some,
    sprintfConfdPath]

/-- What the resolved config map name is: the name of the config map given whenever that one
is present with a non-empty name, and the default in every other case; it is empty exactly
when the default is empty and no non-empty name was given. -/
theorem resolvedName_props (configMap : Option ConfigMapConfig) (d n : String)
    (hn : n = (match configMap with
               | some cm => if cm.Name ≠ "" then cm.Name else d
               | none => d)) :
    (∀ cm, configMap = some cm → cm.Name ≠ "" → n = cm.Name) ∧
    ((∀ cm, configMap = some cm → cm.Name = "") → n = d) ∧
    (n = d ∨ ∃ cm, configMap = some cm ∧ cm.Name ≠ "" ∧ n = cm.Name) ∧
    (n = "" ↔ d = "" ∧ ∀ cm, configMap = some cm → cm.Name = "") ∧
    (d ≠ "" → n ≠ "") := by
  cases configMap with
  | none =>
    simp only at hn
    subst hn
    simp
  | some cm =>
    simp only at hn
    by_cases hc : cm.Name = ""
    · simp only [hc, ne_eq, not_true_eq_false, if_false] at hn
      subst hn
      simp [hc]
    · simp only [ne_eq, hc, not_false_eq_true, if_true] at hn
      subst hn
      simp [hc]

/-- The sub-path of the config-map mount is the default unless the config map is present with
at least one item. -/
theorem GetVolumeMountFromConfigMapConfig_subPath_default (configMap : Option ConfigMapConfig)
    (volumeName volumePath d : String)
    (h : ∀ cm, configMap = some cm → cm.Items = []) :
    (GetVolumeMountFromConfigMapConfig configMap volumeName volumePath d).SubPath = d := by
  cases configMap with
  | none => rfl
  | some cm => simp [GetVolumeMountFromConfigMapConfig, h cm rfl]

/-! ## The claims -/

/-- C1: with a nil custom config, `GetCustomConfigSpecVolumes` returns a volume named
`volumeName` that projects the config map `defaultCMName`, and the mount with
`Name = volumeName`, `MountPath = ConfigVolumePath ++ ConfdVolumePath ++ "/" ++ configFolder`,
`SubPath = ""` and `ReadOnly = true`. -/
theorem C1_GetCustomConfigSpecVolumes_nil
    (ConfigVolumePath ConfdVolumePath volumeName defaultCMName configFolder : String) :
    GetCustomConfigSpecVolumes ConfigVolumePath ConfdVolumePath none
        volumeName defaultCMName configFolder
      = some
          ({ Name := volumeName
             VolumeSource :=
               { HostPath := none
                 EmptyDir := none
                 ConfigMap := some { LocalObjectReference := { Name := defaultCMName } } } },
           { Name := volumeName
             MountPath := ConfigVolumePath ++ ConfdVolumePath ++ "/" ++ configFolder
             SubPath := ""
             ReadOnly := true }) := by
  rfl

/-- C2: for a non-nil custom config `cc`, `GetVolumeFromCustomConfigSpec` returns a volume named
`volumeName` whose only source is a config map projection; the projected name is
`cc.ConfigMap.Name` when `cc.ConfigMap` is non-nil with a non-empty name, and
`defaultConfigMapName` when `cc.ConfigMap` is nil or its name is empty. -/
theorem C2_GetVolumeFromCustomConfigSpec_name (cc : CustomConfig)
    (defaultConfigMapName volumeName : String) :
    ∃ v : Volume,
      GetVolumeFromCustomConfigSpec (some cc) defaultConfigMapName volumeName = some v ∧
      v.Name = volumeName ∧
      v.VolumeSource.HostPath = none ∧ v.VolumeSource.EmptyDir = none ∧
      (∀ cm, cc.ConfigMap = some cm → cm.Name ≠ "" → configMapNameOf v = some cm.Name) ∧
      (∀ cm, cc.ConfigMap = some cm → cm.Name = "" →
        configMapNameOf v = some defaultConfigMapName) ∧
      (cc.ConfigMap = none → configMapNameOf v = some defaultConfigMapName) := by
  obtain ⟨n, hb, hn⟩ := buildVolumeSourceFromConfigMapConfig_some cc.ConfigMap
    defaultConfigMapName
  refine ⟨{ Name := volumeName
            VolumeSource := { ConfigMap := some { LocalObjectReference := { Name := n } } } },
    ?_, rfl, rfl, rfl, ?_, ?_, ?_⟩
  · simp [GetVolumeFromCustomConfigSpec, buildVolumeSourceFromCustomConfigSpec, hb]
  · intro cm hcm hne
    rw [hcm] at hn
    simp [configMapNameOf, hn, hne]
  · intro cm hcm he
    rw [hcm] at hn
    simp [configMapNameOf, hn, he]
  · intro hcm
    rw [hcm] at hn
    simp [configMapNameOf, hn]

/-- Witness of C2: a custom config naming the config map `custom-cm`. -/
theorem C2_GetVolumeFromCustomConfigSpec_name_witness :
    ∃ v : Volume,
      GetVolumeFromCustomConfigSpec
          (some { ConfigMap := some { Name := "custom-cm" } }) "default-cm" "v" = some v ∧
      configMapNameOf v = some "custom-cm" := by
  obtain ⟨v, hv, _, _, _, h1, _, _⟩ :=
    C2_GetVolumeFromCustomConfigSpec_name
      { ConfigMap := some { Name := "custom-cm" } } "default-cm" "v"
  exact ⟨v, hv, h1 { Name := "custom-cm" } rfl (by decide)⟩

/-- C3 (first item wins): for a config map with a non-empty `Items` list,
`GetVolumeMountFromCustomConfigSpec` and `GetVolumeMountFromConfigMapConfig` return the mount
whose `SubPath` is `Items[0].Path`, whatever `defaultSubPath` is; and any other config map with
the same first item, whatever its later items, its name and the default sub-path given with
it, yields the same mounts. -/
theorem C3_subPath_first_item_wins (configData : Option String) (cm : ConfigMapConfig)
    (h : cm.Items.length > 0) (volumeName volumePath defaultSubPath : String) :
    GetVolumeMountFromCustomConfigSpec (some { ConfigData := configData, ConfigMap := some cm })
        volumeName volumePath defaultSubPath
      = some { Name := volumeName, MountPath := volumePath
               SubPath := (cm.Items.get ⟨0, h⟩).Path, ReadOnly := true } ∧
    GetVolumeMountFromConfigMapConfig (some cm) volumeName volumePath defaultSubPath
      = { Name := volumeName, MountPath := volumePath
          SubPath := (cm.Items.get ⟨0, h⟩).Path, ReadOnly := true } ∧
    (∀ (cm2 : ConfigMapConfig) (h2 : cm2.Items.length > 0) (defaultSubPath2 : String),
      cm2.Items.get ⟨0, h2⟩ = cm.Items.get ⟨0, h⟩ →
      GetVolumeMountFromCustomConfigSpec
          (some { ConfigData := configData, ConfigMap := some cm2 })
          volumeName volumePath defaultSubPath2
        = GetVolumeMountFromCustomConfigSpec
            (some { ConfigData := configData, ConfigMap := some cm })
            volumeName volumePath defaultSubPath ∧
      GetVolumeMountFromConfigMapConfig (some cm2) volumeName volumePath defaultSubPath2
        = GetVolumeMountFromConfigMapConfig (some cm) volumeName volumePath defaultSubPath) := by
  refine ⟨?_, ?_, ?_⟩
  · simp [GetVolumeMountFromCustomConfigSpec, h]
  · simp [GetVolumeMountFromConfigMapConfig, h]
  · intro cm2 h2 d2 heq
    have hp : (cm2.Items.get ⟨0, h2⟩).Path = (cm.Items.get ⟨0, h⟩).Path := by rw [heq]
    simp only [List.get_eq_getElem] at hp
    simp [GetVolumeMountFromCustomConfigSpec, GetVolumeMountFromConfigMapConfig, h, h2, hp]

/-- Witness of C3: the items `[(a, p1), (b, p2)]` against `[(a, p1)]`. -/
theorem C3_subPath_first_item_wins_witness :
    GetVolumeMountFromConfigMapConfig
        (some { Name := "cm", Items := [{ Key := "a", Path := "p1" }, { Key := "b", Path := "p2" }] })
        "v" "/etc/conf" "dflt"
      = { Name := "v", MountPath := "/etc/conf", SubPath := "p1", ReadOnly := true } ∧
    GetVolumeMountFromConfigMapConfig
        (some { Name := "other", Items := [{ Key := "a", Path := "p1" }] }) "v" "/etc/conf" ""
      = GetVolumeMountFromConfigMapConfig
        (some { Name := "cm", Items := [{ Key := "a", Path := "p1" }, { Key := "b", Path := "p2" }] })
        "v" "/etc/conf" "dflt" := by
  have key := C3_subPath_first_item_wins none
    { Name := "cm", Items := [{ Key := "a", Path := "p1" }, { Key := "b", Path := "p2" }] }
    (by decide) "v" "/etc/conf" "dflt"
  exact ⟨key.2.1,
    (key.2.2 { Name := "other", Items := [{ Key := "a", Path := "p1" }] } (by decide) "" rfl).2⟩

/-- C4: for a non-nil custom config whose `ConfigMap` is nil or has no items,
`GetVolumeMountFromCustomConfigSpec` returns a mount with `SubPath = defaultSubPath` (so a
non-empty default gives a non-empty sub-path), `Name = volumeName` and
`MountPath = volumePath`. -/
theorem C4_subPath_default_without_items (cc : CustomConfig)
    (h : cc.ConfigMap = none ∨ ∃ cm, cc.ConfigMap = some cm ∧ cm.Items = [])
    (volumeName volumePath defaultSubPath : String) :
    ∃ m : VolumeMount,
      GetVolumeMountFromCustomConfigSpec (some cc) volumeName volumePath defaultSubPath
        = some m ∧
      m.SubPath = defaultSubPath ∧ (defaultSubPath ≠ "" → m.SubPath ≠ "") ∧
      m.Name = volumeName ∧ m.MountPath = volumePath := by
  rcases h with h | ⟨cm, hcm, hI⟩
  · exact ⟨_, by simp [GetVolumeMountFromCustomConfigSpec, h]; rfl, rfl, id, rfl, rfl⟩
  · exact ⟨_, by simp [GetVolumeMountFromCustomConfigSpec, hcm, hI]; rfl, rfl, id, rfl, rfl⟩

/-- Witness of C4: an override naming `custom-cm` without items, default sub-path
`ksm.yaml`. -/
theorem C4_subPath_default_without_items_witness :
    ∃ m : VolumeMount,
      GetVolumeMountFromCustomConfigSpec
          (some { ConfigMap := some { Name := "custom-cm", Items := [] } })
          "v" "/etc/conf" "ksm.yaml" = some m ∧
      m.SubPath = "ksm.yaml" ∧ ("ksm.yaml" ≠ "" → m.SubPath ≠ "") ∧
      m.Name = "v" ∧ m.MountPath = "/etc/conf" :=
  C4_subPath_default_without_items { ConfigMap := some { Name := "custom-cm", Items := [] } }
    (Or.inr ⟨{ Name := "custom-cm", Items := [] }, rfl, rfl⟩) "v" "/etc/conf" "ksm.yaml"

/-- C5, as stated, fails: with a nil custom config `GetVolumeMountFromCustomConfigSpec` does
not return a mount; reading `cfcm.ConfigMap` is a nil dereference. -/
theorem C5_nil_customConfig_panics :
    ¬ ∃ m : VolumeMount,
        GetVolumeMountFromCustomConfigSpec none "v" "/etc/conf" "ksm.yaml" = some m := by
  simp [GetVolumeMountFromCustomConfigSpec]

/-- C5 (amended): `GetVolumeMountFromCustomConfigSpec` returns a mount for every non-nil
custom config, also one whose `ConfigMap` is nil; a nil `ConfigMap` counts as "no items", so
the `SubPath` of the mount is then `defaultSubPath`. With a nil custom config the call does
not return. -/
theorem C5_GetVolumeMountFromCustomConfigSpec_total_on_nonnil (cc : CustomConfig)
    (volumeName volumePath defaultSubPath : String) :
    (∃ m : VolumeMount,
      GetVolumeMountFromCustomConfigSpec (some cc) volumeName volumePath defaultSubPath
        = some m ∧
      (cc.ConfigMap = none → m.SubPath = defaultSubPath)) ∧
    GetVolumeMountFromCustomConfigSpec none volumeName volumePath defaultSubPath = none := by
  refine ⟨⟨_, GetVolumeMountFromCustomConfigSpec_some cc volumeName volumePath defaultSubPath,
    ?_⟩, rfl⟩
  intro h
  simp [GetVolumeMountFromConfigMapConfig, h]

/-- Witness of C5 (amended): an override carrying only `configData`. -/
theorem C5_GetVolumeMountFromCustomConfigSpec_total_on_nonnil_witness :
    ∃ m : VolumeMount,
      GetVolumeMountFromCustomConfigSpec
          (some { ConfigData := some "init_config:", ConfigMap := none })
          "v" "/etc/conf" "ksm.yaml" = some m ∧
      m.SubPath = "ksm.yaml" := by
  obtain ⟨⟨m, hm, hs⟩, _⟩ :=
    C5_GetVolumeMountFromCustomConfigSpec_total_on_nonnil
      { ConfigData := some "init_config:", ConfigMap := none } "v" "/etc/conf" "ksm.yaml"
  exact ⟨m, hm, hs rfl⟩

/-- C6: `GetVolumeFromCustomConfigSpec` fails (nil dereference) exactly when its custom config
is nil; for every non-nil custom config it returns a volume. -/
theorem C6_GetVolumeFromCustomConfigSpec_fails_iff_nil (cfcm : Option CustomConfig)
    (defaultConfigMapName volumeName : String) :
    (GetVolumeFromCustomConfigSpec cfcm defaultConfigMapName volumeName = none ↔ cfcm = none) ∧
    (∀ cc : CustomConfig, ∃ v : Volume,
      GetVolumeFromCustomConfigSpec (some cc) defaultConfigMapName volumeName = some v) := by
  have hsome : ∀ cc : CustomConfig, ∃ v : Volume,
      GetVolumeFromCustomConfigSpec (some cc) defaultConfigMapName volumeName = some v := by
    intro cc
    obtain ⟨n, hv, _⟩ := GetVolumeFromCustomConfigSpec_some cc defaultConfigMapName volumeName
    exact ⟨_, hv⟩
  refine ⟨?_, hsome⟩
  cases cfcm with
  | none => simp [GetVolumeFromCustomConfigSpec, buildVolumeSourceFromCustomConfigSpec]
  | some cc =>
    obtain ⟨v, hv⟩ := hsome cc
    simp [hv]

/-- C7, as stated, fails: with an empty default name and no override, `GetConfigMapVolumes`
and `GetCustomConfigSpecVolumes` project the config map named `""`. -/
theorem C7_empty_configMapName :
    (∃ v m, GetConfigMapVolumes none "" "v" "/etc/conf" = some (v, m) ∧
      configMapNameOf v = some "") ∧
    (∃ v m, GetCustomConfigSpecVolumes "/etc/datadog-agent" "/conf.d" none "v" "" "ksm"
        = some (v, m) ∧
      configMapNameOf v = some "") := by
  exact ⟨⟨_, _, rfl, rfl⟩, ⟨_, _, rfl, rfl⟩⟩

/-- C7 (amended): the config map name of the source produced by `GetCustomConfigSpecVolumes`,
`GetConfigMapVolumes`, `GetVolumeFromCustomConfigSpec` and `GetVolumeFromConfigMapConfig` is the
name of the config map given whenever that one is present with a non-empty name (the override
name wins over the default), and the default name in every other case (config map nil, or its
name empty). It is therefore non-empty whenever the default name is non-empty, and it is
empty exactly when the default name is empty and no non-empty name was given. With a nil
custom config `GetCustomConfigSpecVolumes` projects the default name. -/
theorem C7_configMapName_resolution (ConfigVolumePath ConfdVolumePath : String)
    (configData : Option String) (configMap : Option ConfigMapConfig)
    (d volumeName volumePath configFolder : String) :
    ∃ n : String,
      ((∀ cm, configMap = some cm → cm.Name ≠ "" → n = cm.Name) ∧
       ((∀ cm, configMap = some cm → cm.Name = "") → n = d) ∧
       (n = d ∨ ∃ cm, configMap = some cm ∧ cm.Name ≠ "" ∧ n = cm.Name) ∧
       (n = "" ↔ d = "" ∧ ∀ cm, configMap = some cm → cm.Name = "") ∧
       (d ≠ "" → n ≠ "")) ∧
      (∃ v m, GetCustomConfigSpecVolumes ConfigVolumePath ConfdVolumePath
          (some { ConfigData := configData, ConfigMap := configMap })
          volumeName d configFolder = some (v, m) ∧ configMapNameOf v = some n) ∧
      (∃ v m, GetCustomConfigSpecVolumes ConfigVolumePath ConfdVolumePath none
          volumeName d configFolder = some (v, m) ∧ configMapNameOf v = some d) ∧
      (∃ v m, GetConfigMapVolumes configMap d volumeName volumePath = some (v, m) ∧
        configMapNameOf v = some n) ∧
      (∃ v, GetVolumeFromCustomConfigSpec
          (some { ConfigData := configData, ConfigMap := configMap }) d volumeName = some v ∧
        configMapNameOf v = some n) ∧
      (∃ v, GetVolumeFromConfigMapConfig configMap d volumeName = some v ∧
        configMapNameOf v = some n) := by
  obtain ⟨n1, h1, hn1⟩ := GetCustomConfigSpecVolumes_some ConfigVolumePath ConfdVolumePath
    { ConfigData := configData, ConfigMap := configMap } volumeName d configFolder
  obtain ⟨n2, h2, hn2⟩ := GetConfigMapVolumes_some configMap d volumeName volumePath
  obtain ⟨n3, h3, hn3⟩ := GetVolumeFromCustomConfigSpec_some
    { ConfigData := configData, ConfigMap := configMap } d volumeName
  obtain ⟨n4, h4, hn4⟩ := GetVolumeFromConfigMapConfig_some configMap d volumeName
  have e1 : n1 = n4 := by rw [hn1, hn4]
  have e2 : n2 = n4 := by rw [hn2, hn4]
  have e3 : n3 = n4 := by rw [hn3, hn4]
  subst e1 e2 e3
  exact ⟨_, resolvedName_props configMap d _ hn4, ⟨_, _, h1, rfl⟩, ⟨_, _, rfl, rfl⟩,
    ⟨_, _, h2, rfl⟩, ⟨_, h3, rfl⟩, ⟨_, h4, rfl⟩⟩

/-- Witness of C7 (amended): the override name `custom-cm` wins over the non-empty default
`default-cm`, and the projected name is not empty. -/
theorem C7_configMapName_resolution_witness :
    ∃ n : String, n = "custom-cm" ∧ n ≠ "" ∧
      ∃ v m, GetConfigMapVolumes (some { Name := "custom-cm", Items := [] })
          "default-cm" "v" "/etc/conf"
        = some (v, m) ∧ configMapNameOf v = some n := by
  obtain ⟨n, ⟨hwin, _, _, _, hne⟩, _, _, h, _, _⟩ :=
    C7_configMapName_resolution "/etc/datadog-agent" "/conf.d" none
      (some { Name := "custom-cm", Items := [] }) "default-cm" "v" "/etc/conf" "ksm"
  exact ⟨n, hwin { Name := "custom-cm", Items := [] } rfl (by decide), hne (by decide), h⟩

/-- C8 (read-only invariant of configuration-backed mounts): the mount returned by
`GetCustomConfigSpecVolumes` (nil and non-nil override), by `GetConfigMapVolumes`, by
`GetVolumeMountFromCustomConfigSpec` on a non-nil override and by
`GetVolumeMountFromConfigMapConfig` has `ReadOnly = true`; each of these calls returns. -/
theorem C8_config_mounts_readOnly (ConfigVolumePath ConfdVolumePath : String)
    (customConfig : Option CustomConfig) (cc : CustomConfig)
    (configMap : Option ConfigMapConfig)
    (volumeName defaultCMName configFolder volumePath defaultSubPath : String) :
    (∃ v m, GetCustomConfigSpecVolumes ConfigVolumePath ConfdVolumePath customConfig
        volumeName defaultCMName configFolder = some (v, m) ∧ m.ReadOnly = true) ∧
    (∃ v m, GetConfigMapVolumes configMap defaultCMName volumeName volumePath = some (v, m) ∧
      m.ReadOnly = true) ∧
    (∃ m, GetVolumeMountFromCustomConfigSpec (some cc) volumeName volumePath defaultSubPath
        = some m ∧ m.ReadOnly = true) ∧
    (GetVolumeMountFromConfigMapConfig configMap volumeName volumePath defaultSubPath).ReadOnly
      = true := by
  refine ⟨?_, ?_, ⟨_, GetVolumeMountFromCustomConfigSpec_some cc _ _ _, rfl⟩, rfl⟩
  · cases customConfig with
    | none => exact ⟨_, _, rfl, rfl⟩
    | some c =>
      obtain ⟨n, h, _⟩ := GetCustomConfigSpecVolumes_some ConfigVolumePath ConfdVolumePath c
        volumeName defaultCMName configFolder
      exact ⟨_, _, h, rfl⟩
  · obtain ⟨n, h, _⟩ := GetConfigMapVolumes_some configMap defaultCMName volumeName volumePath
    exact ⟨_, _, h, rfl⟩

/-- C9: every pair-returning operation (`GetVolumes`, `GetVolumesEmptyDir`,
`GetCustomConfigSpecVolumes`, `GetConfigMapVolumes`) returns, and in each returned pair the
volume-s `Name` and the mount-s `Name` both equal the `volumeName` argument, hence each
other. -/
theorem C9_volume_and_mount_share_name (ConfigVolumePath ConfdVolumePath : String)
    (customConfig : Option CustomConfig) (configMap : Option ConfigMapConfig)
    (volumeName hostPath mountPath defaultCMName configFolder : String) (readOnly : Bool) :
    ((GetVolumes volumeName hostPath mountPath readOnly).1.Name = volumeName ∧
     (GetVolumes volumeName hostPath mountPath readOnly).2.Name = volumeName) ∧
    ((GetVolumesEmptyDir volumeName mountPath readOnly).1.Name = volumeName ∧
     (GetVolumesEmptyDir volumeName mountPath readOnly).2.Name = volumeName) ∧
    ((∃ p, GetCustomConfigSpecVolumes ConfigVolumePath ConfdVolumePath customConfig
        volumeName defaultCMName configFolder = some p) ∧
     ∀ p, GetCustomConfigSpecVolumes ConfigVolumePath ConfdVolumePath customConfig
        volumeName defaultCMName configFolder = some p →
      p.1.Name = volumeName ∧ p.2.Name = volumeName ∧ p.1.Name = p.2.Name) ∧
    ((∃ p, GetConfigMapVolumes configMap defaultCMName volumeName mountPath = some p) ∧
     ∀ p, GetConfigMapVolumes configMap defaultCMName volumeName mountPath = some p →
      p.1.Name = volumeName ∧ p.2.Name = volumeName ∧ p.1.Name = p.2.Name) := by
  refine ⟨⟨rfl, rfl⟩, ⟨rfl, rfl⟩, ?_, ?_⟩
  · cases customConfig with
    | none =>
      refine ⟨⟨_, rfl⟩, ?_⟩
      intro p hp
      simp only [GetCustomConfigSpecVolumes, Option.some.injEq] at hp
      subst hp
      exact ⟨rfl, rfl, rfl⟩
    | some c =>
      obtain ⟨n, h, _⟩ := GetCustomConfigSpecVolumes_some ConfigVolumePath ConfdVolumePath c
        volumeName defaultCMName configFolder
      refine ⟨⟨_, h⟩, ?_⟩
      intro p hp
      rw [h, Option.some.injEq] at hp
      subst hp
      exact ⟨rfl, rfl, rfl⟩
  · obtain ⟨n, h, _⟩ := GetConfigMapVolumes_some configMap defaultCMName volumeName mountPath
    refine ⟨⟨_, h⟩, ?_⟩
    intro p hp
    rw [h, Option.some.injEq] at hp
    subst hp
    exact ⟨rfl, rfl, rfl⟩

/-- Witness of C9: a layered call with an override and its returned pair. -/
theorem C9_volume_and_mount_share_name_witness :
    GetCustomConfigSpecVolumes "/etc/datadog-agent" "/conf.d"
        (some { ConfigMap := some { Name := "custom-cm", Items := [{ Key := "a", Path := "p1" }] } })
        "ksm-conf" "default-cm" "kubernetes_state_core.d"
      = some
          ({ Name := "ksm-conf"
             VolumeSource :=
               { ConfigMap := some { LocalObjectReference := { Name := "custom-cm" } } } },
           { Name := "ksm-conf"
             MountPath := "/etc/datadog-agent/conf.d/kubernetes_state_core.d"
             SubPath := "p1"
             ReadOnly := true }) ∧
    ("ksm-conf" = "ksm-conf" ∧ "ksm-conf" = "ksm-conf" ∧ "ksm-conf" = "ksm-conf") :=
  ⟨by decide,
   (C9_volume_and_mount_share_name "/etc/datadog-agent" "/conf.d"
      (some { ConfigMap := some { Name := "custom-cm", Items := [{ Key := "a", Path := "p1" }] } })
      none "ksm-conf" "/var/run" "/host/var/run" "default-cm" "kubernetes_state_core.d"
      true).2.2.1.2
      ({ Name := "ksm-conf"
         VolumeSource :=
           { ConfigMap := some { LocalObjectReference := { Name := "custom-cm" } } } },
       { Name := "ksm-conf"
         MountPath := "/etc/datadog-agent/conf.d/kubernetes_state_core.d"
         SubPath := "p1"
         ReadOnly := true })
      (by decide)⟩

/-- C10: `GetConfigMapVolumes` returns for every input, a nil `configMap` included; with a nil
`configMap` it returns the volume named `volumeName` projecting the config map `defaultCMName`
and the mount `{Name: volumeName, MountPath: volumePath, SubPath: "", ReadOnly: true}`. -/
theorem C10_GetConfigMapVolumes_total (configMap : Option ConfigMapConfig)
    (defaultCMName volumeName volumePath : String) :
    (∃ v m, GetConfigMapVolumes configMap defaultCMName volumeName volumePath = some (v, m)) ∧
    GetConfigMapVolumes none defaultCMName volumeName volumePath
      = some
          ({ Name := volumeName
             VolumeSource :=
               { HostPath := none
                 EmptyDir := none
                 ConfigMap := some { LocalObjectReference := { Name := defaultCMName } } } },
           { Name := volumeName
             MountPath := volumePath
             SubPath := ""
             ReadOnly := true }) := by
  obtain ⟨n, h, _⟩ := GetConfigMapVolumes_some configMap defaultCMName volumeName volumePath
  exact ⟨⟨_, _, h⟩, rfl⟩

/-- C11: the mount returned by `GetCustomConfigSpecVolumes` and by `GetConfigMapVolumes` has a
non-empty `SubPath` only if the config map in effect is present and declares at least one
item; with a nil override, an override without `ConfigMap`, a nil config map or a config map
without items, `SubPath` is the default, which both operations fix to `""`. -/
theorem C11_subPath_nonempty_only_with_items (ConfigVolumePath ConfdVolumePath : String)
    (customConfig : Option CustomConfig) (configMap : Option ConfigMapConfig)
    (volumeName defaultCMName configFolder volumePath : String) :
    (∃ v m, GetCustomConfigSpecVolumes ConfigVolumePath ConfdVolumePath customConfig
        volumeName defaultCMName configFolder = some (v, m) ∧
      (m.SubPath ≠ "" →
        ∃ cc cm, customConfig = some cc ∧ cc.ConfigMap = some cm ∧ cm.Items ≠ []) ∧
      ((∀ cc cm, customConfig = some cc → cc.ConfigMap = some cm → cm.Items = []) →
        m.SubPath = "")) ∧
    (∃ v m, GetConfigMapVolumes configMap defaultCMName volumeName volumePath = some (v, m) ∧
      (m.SubPath ≠ "" → ∃ cm, configMap = some cm ∧ cm.Items ≠ []) ∧
      ((∀ cm, configMap = some cm → cm.Items = []) → m.SubPath = "")) := by
  constructor
  · cases customConfig with
    | none =>
      refine ⟨_, _, rfl, ?_, fun _ => rfl⟩
      intro hne
      exact absurd rfl hne
    | some c =>
      obtain ⟨n, h, _⟩ := GetCustomConfigSpecVolumes_some ConfigVolumePath ConfdVolumePath c
        volumeName defaultCMName configFolder
      have key : (∀ cm, c.ConfigMap = some cm → cm.Items = []) →
          (GetVolumeMountFromConfigMapConfig c.ConfigMap volumeName
            (ConfigVolumePath ++ ConfdVolumePath ++ "/" ++ configFolder) "").SubPath = "" :=
        GetVolumeMountFromConfigMapConfig_subPath_default _ _ _ _
      refine ⟨_, _, h, ?_, ?_⟩
      · intro hne
        by_contra hcon
        apply hne
        apply key
        intro cm hcm
        by_contra hI
        exact hcon ⟨c, cm, rfl, hcm, hI⟩
      · intro hall
        exact key (fun cm hcm => hall c cm rfl hcm)
  · obtain ⟨n, h, _⟩ := GetConfigMapVolumes_some configMap defaultCMName volumeName volumePath
    have key := GetVolumeMountFromConfigMapConfig_subPath_default configMap volumeName
      volumePath ""
    refine ⟨_, _, h, ?_, key⟩
    intro hne
    by_contra hcon
    apply hne
    apply key
    intro cm hcm
    by_contra hI
    exact hcon ⟨cm, hcm, hI⟩

/-- Witness of C11: an override carrying only `configData` has the empty sub-path, and a
mount with the sub-path `p1` comes from a config map with an item. -/
theorem C11_subPath_nonempty_only_with_items_witness :
    (∃ v m, GetCustomConfigSpecVolumes "/etc/datadog-agent" "/conf.d"
        (some { ConfigData := some "init_config:", ConfigMap := none })
        "v" "default-cm" "ksm" = some (v, m) ∧ m.SubPath = "") ∧
    (∃ v m, GetConfigMapVolumes
        (some { Name := "cm", Items := [{ Key := "a", Path := "p1" }] })
        "default-cm" "v" "/etc/conf" = some (v, m) ∧ m.SubPath = "p1" ∧
      ∃ cm, (some { Name := "cm", Items := [{ Key := "a", Path := "p1" }] }
          : Option ConfigMapConfig) = some cm ∧ cm.Items ≠ []) := by
  have key := C11_subPath_nonempty_only_with_items "/etc/datadog-agent" "/conf.d"
    (some { ConfigData := some "init_config:", ConfigMap := none })
    (some { Name := "cm", Items := [{ Key := "a", Path := "p1" }] })
    "v" "default-cm" "ksm" "/etc/conf"
  obtain ⟨⟨v1, m1, h1, _, hd⟩, ⟨v2, m2, h2, hi, _⟩⟩ := key
  refine ⟨⟨v1, m1, h1, hd ?_⟩, ⟨v2, m2, h2, ?_, ?_⟩⟩
  · intro cc cm hcc hcm
    simp only [Option.some.injEq] at hcc
    subst hcc
    simp at hcm
  · have e : GetConfigMapVolumes
        (some { Name := "cm", Items := [{ Key := "a", Path := "p1" }] })
        "default-cm" "v" "/etc/conf"
        = some ({ Name := "v"
                  VolumeSource :=
                    { ConfigMap := some { LocalObjectReference := { Name := "cm" } } } },
                { Name := "v", MountPath := "/etc/conf", SubPath := "p1", ReadOnly := true }) := by
      decide
    rw [e, Option.some.injEq, Prod.mk.injEq] at h2
    rw [← h2.2]
  · apply hi
    have e : GetConfigMapVolumes
        (some { Name := "cm", Items := [{ Key := "a", Path := "p1" }] })
        "default-cm" "v" "/etc/conf"
        = some ({ Name := "v"
                  VolumeSource :=
                    { ConfigMap := some { LocalObjectReference := { Name := "cm" } } } },
                { Name := "v", MountPath := "/etc/conf", SubPath := "p1", ReadOnly := true }) := by
      decide
    rw [e, Option.some.injEq, Prod.mk.injEq] at h2
    rw [← h2.2]
    decide

/-- C12: `GetVolumes` returns, for every input, the volume named `volumeName` whose source is
`HostPath` with `Path = hostPath`, and the mount
`{Name: volumeName, MountPath: mountPath, SubPath: "", ReadOnly: readOnly}`. -/
theorem C12_GetVolumes_value (volumeName hostPath mountPath : String) (readOnly : Bool) :
    GetVolumes volumeName hostPath mountPath readOnly
      = ({ Name := volumeName
           VolumeSource :=
             { HostPath := some { Path := hostPath, Type_ := none }
               EmptyDir := none
               ConfigMap := none } },
         { Name := volumeName
           MountPath := mountPath
           SubPath := ""
           ReadOnly := readOnly
           MountPropagation := none
           SubPathExpr := "" }) := by
  rfl

/-- C13: `GetVolumesEmptyDir` returns, for every input, the volume named `volumeName` whose
source is an `EmptyDir`, and the mount
`{Name: volumeName, MountPath: mountPath, SubPath: "", ReadOnly: readOnly}`. -/
theorem C13_GetVolumesEmptyDir_value (volumeName mountPath : String) (readOnly : Bool) :
    GetVolumesEmptyDir volumeName mountPath readOnly
      = ({ Name := volumeName
           VolumeSource :=
             { HostPath := none
               EmptyDir := some { Medium := "", SizeLimit := none }
               ConfigMap := none } },
         { Name := volumeName
           MountPath := mountPath
           SubPath := ""
           ReadOnly := readOnly
           MountPropagation := none
           SubPathExpr := "" }) := by
  rfl

/-- C14: every volume returned by an operation has exactly one of the source variants
`HostPath`, `EmptyDir`, `ConfigMap` set: `GetVolumes` sets only `HostPath`,
`GetVolumesEmptyDir` only `EmptyDir`, and `GetCustomConfigSpecVolumes`, `GetConfigMapVolumes`,
`GetVolumeFromCustomConfigSpec` (on a non-nil custom config, where it returns) and
`GetVolumeFromConfigMapConfig` only `ConfigMap`. -/
theorem C14_exactly_one_source (ConfigVolumePath ConfdVolumePath : String)
    (customConfig : Option CustomConfig) (cc : CustomConfig)
    (configMap : Option ConfigMapConfig)
    (volumeName hostPath mountPath defaultCMName configFolder : String) (readOnly : Bool) :
    (∃ s, (GetVolumes volumeName hostPath mountPath readOnly).1.VolumeSource = s ∧
      s.HostPath.isSome = true ∧ s.EmptyDir = none ∧ s.ConfigMap = none ∧
      populatedSources s = 1) ∧
    (∃ s, (GetVolumesEmptyDir volumeName mountPath readOnly).1.VolumeSource = s ∧
      s.HostPath = none ∧ s.EmptyDir.isSome = true ∧ s.ConfigMap = none ∧
      populatedSources s = 1) ∧
    (∃ v m, GetCustomConfigSpecVolumes ConfigVolumePath ConfdVolumePath customConfig
        volumeName defaultCMName configFolder = some (v, m) ∧
      v.VolumeSource.HostPath = none ∧ v.VolumeSource.EmptyDir = none ∧
      v.VolumeSource.ConfigMap.isSome = true ∧ populatedSources v.VolumeSource = 1) ∧
    (∃ v m, GetConfigMapVolumes configMap defaultCMName volumeName mountPath = some (v, m) ∧
      v.VolumeSource.HostPath = none ∧ v.VolumeSource.EmptyDir = none ∧
      v.VolumeSource.ConfigMap.isSome = true ∧ populatedSources v.VolumeSource = 1) ∧
    (∃ v, GetVolumeFromCustomConfigSpec (some cc) defaultCMName volumeName = some v ∧
      v.VolumeSource.HostPath = none ∧ v.VolumeSource.EmptyDir = none ∧
      v.VolumeSource.ConfigMap.isSome = true ∧ populatedSources v.VolumeSource = 1) ∧
    (∃ v, GetVolumeFromConfigMapConfig configMap defaultCMName volumeName = some v ∧
      v.VolumeSource.HostPath = none ∧ v.VolumeSource.EmptyDir = none ∧
      v.VolumeSource.ConfigMap.isSome = true ∧ populatedSources v.VolumeSource = 1) := by
  refine ⟨⟨_, rfl, rfl, rfl, rfl, rfl⟩, ⟨_, rfl, rfl, rfl, rfl, rfl⟩, ?_, ?_, ?_, ?_⟩
  · cases customConfig with
    | none => exact ⟨_, _, rfl, rfl, rfl, rfl, rfl⟩
    | some c =>
      obtain ⟨n, h, _⟩ := GetCustomConfigSpecVolumes_some ConfigVolumePath ConfdVolumePath c
        volumeName defaultCMName configFolder
      exact ⟨_, _, h, rfl, rfl, rfl, rfl⟩
  · obtain ⟨n, h, _⟩ := GetConfigMapVolumes_some configMap defaultCMName volumeName mountPath
    exact ⟨_, _, h, rfl, rfl, rfl, rfl⟩
  · obtain ⟨n, h, _⟩ := GetVolumeFromCustomConfigSpec_some cc defaultCMName volumeName
    exact ⟨_, h, rfl, rfl, rfl, rfl⟩
  · obtain ⟨n, h, _⟩ := GetVolumeFromConfigMapConfig_some configMap defaultCMName volumeName
    exact ⟨_, h, rfl, rfl, rfl, rfl⟩

/-- C15 (one precedence rule): on a non-nil custom config `cc`,
`GetCustomConfigSpecVolumes(cc, volumeName, defaultCMName, configFolder)` returns, and its
result is that of `GetConfigMapVolumes(cc.ConfigMap, defaultCMName, volumeName,
ConfigVolumePath ++ ConfdVolumePath ++ "/" ++ configFolder)`, volume and mount alike. -/
theorem C15_layered_equals_named (ConfigVolumePath ConfdVolumePath : String)
    (cc : CustomConfig) (volumeName defaultCMName configFolder : String) :
    GetCustomConfigSpecVolumes ConfigVolumePath ConfdVolumePath (some cc)
        volumeName defaultCMName configFolder
      = GetConfigMapVolumes cc.ConfigMap defaultCMName volumeName
          (ConfigVolumePath ++ ConfdVolumePath ++ "/" ++ configFolder) ∧
    ∃ p, GetCustomConfigSpecVolumes ConfigVolumePath ConfdVolumePath (some cc)
        volumeName defaultCMName configFolder = some p := by
  obtain ⟨n1, h1, hn1⟩ := GetCustomConfigSpecVolumes_some ConfigVolumePath ConfdVolumePath cc
    volumeName defaultCMName configFolder
  obtain ⟨n2, h2, hn2⟩ := GetConfigMapVolumes_some cc.ConfigMap defaultCMName volumeName
    (ConfigVolumePath ++ ConfdVolumePath ++ "/" ++ configFolder)
  have e : n1 = n2 := by rw [hn1, hn2]
  subst e
  exact ⟨by rw [h1, h2], _, h1⟩

/-- C16: the nil branch of `GetCustomConfigSpecVolumes` agrees with the override branch on an
override without a config map: for a non-nil `cc` whose `ConfigMap` is nil, the call on `cc`
returns the same volume and mount as the call on nil. -/
theorem C16_nil_branch_agrees_with_empty_override (ConfigVolumePath ConfdVolumePath : String)
    (cc : CustomConfig) (h : cc.ConfigMap = none)
    (volumeName defaultCMName configFolder : String) :
    GetCustomConfigSpecVolumes ConfigVolumePath ConfdVolumePath none
        volumeName defaultCMName configFolder
      = GetCustomConfigSpecVolumes ConfigVolumePath ConfdVolumePath (some cc)
          volumeName defaultCMName configFolder ∧
    ∃ p, GetCustomConfigSpecVolumes ConfigVolumePath ConfdVolumePath (some cc)
        volumeName defaultCMName configFolder = some p := by
  obtain ⟨n, h1, hn⟩ := GetCustomConfigSpecVolumes_some ConfigVolumePath ConfdVolumePath cc
    volumeName defaultCMName configFolder
  rw [h] at hn h1
  simp only at hn
  subst hn
  refine ⟨?_, _, h1⟩
  rw [h1]
  rfl

/-- Witness of C16: an override carrying only `configData`. -/
theorem C16_nil_branch_agrees_with_empty_override_witness :
    GetCustomConfigSpecVolumes "/etc/datadog-agent" "/conf.d" none "v" "default-cm" "ksm"
      = GetCustomConfigSpecVolumes "/etc/datadog-agent" "/conf.d"
          (some { ConfigData := some "init_config:", ConfigMap := none })
          "v" "default-cm" "ksm" :=
  (C16_nil_branch_agrees_with_empty_override "/etc/datadog-agent" "/conf.d"
    { ConfigData := some "init_config:", ConfigMap := none } rfl "v" "default-cm" "ksm").1

/-- C17 (source and mount read disjoint parts of the config map): two config maps with the
same `Name` give the same volume from `GetVolumeFromConfigMapConfig`, whatever their `Items`,
and no item is copied into the volume source; two config maps with the same `Items` give the
same mount from `GetVolumeMountFromConfigMapConfig`, whatever their `Name`, and the mount
returned by `GetConfigMapVolumes` is the same whatever the default config map name. -/
theorem C17_source_and_mount_independent (cm1 cm2 : ConfigMapConfig)
    (defaultConfigMapName defaultConfigMapName2 volumeName volumePath defaultSubPath : String) :
    (cm1.Name = cm2.Name →
      GetVolumeFromConfigMapConfig (some cm1) defaultConfigMapName volumeName
        = GetVolumeFromConfigMapConfig (some cm2) defaultConfigMapName volumeName) ∧
    (∃ v, GetVolumeFromConfigMapConfig (some cm1) defaultConfigMapName volumeName = some v ∧
      ∀ src, v.VolumeSource.ConfigMap = some src → src.Items = []) ∧
    (cm1.Items = cm2.Items →
      GetVolumeMountFromConfigMapConfig (some cm1) volumeName volumePath defaultSubPath
        = GetVolumeMountFromConfigMapConfig (some cm2) volumeName volumePath defaultSubPath ∧
      ∃ p1 p2,
        GetConfigMapVolumes (some cm1) defaultConfigMapName volumeName volumePath = some p1 ∧
        GetConfigMapVolumes (some cm2) defaultConfigMapName2 volumeName volumePath = some p2 ∧
        p1.2 = p2.2) := by
  refine ⟨?_, ?_, ?_⟩
  · intro hN
    obtain ⟨n1, h1, hn1⟩ := GetVolumeFromConfigMapConfig_some (some cm1) defaultConfigMapName
      volumeName
    obtain ⟨n2, h2, hn2⟩ := GetVolumeFromConfigMapConfig_some (some cm2) defaultConfigMapName
      volumeName
    have e : n1 = n2 := by
      rw [hn1, hn2]
      simp only [hN]
    subst e
    rw [h1, h2]
  · obtain ⟨n1, h1, _⟩ := GetVolumeFromConfigMapConfig_some (some cm1) defaultConfigMapName
      volumeName
    refine ⟨_, h1, ?_⟩
    intro src hsrc
    simp only [Option.some.injEq] at hsrc
    subst hsrc
    rfl
  · intro hI
    have hm : ∀ d : String,
        GetVolumeMountFromConfigMapConfig (some cm1) volumeName volumePath d
          = GetVolumeMountFromConfigMapConfig (some cm2) volumeName volumePath d := by
      intro d
      show ({ Name := volumeName, MountPath := volumePath, ReadOnly := true
              SubPath := if h : cm1.Items.length > 0 then (cm1.Items.get ⟨0, h⟩).Path else d }
              : VolumeMount)
          = { Name := volumeName, MountPath := volumePath, ReadOnly := true
              SubPath := if h : cm2.Items.length > 0 then (cm2.Items.get ⟨0, h⟩).Path else d }
      rw [subPath_cases cm1 d, subPath_cases cm2 d, hI]
    obtain ⟨n1, h1, _⟩ := GetConfigMapVolumes_some (some cm1) defaultConfigMapName
      volumeName volumePath
    obtain ⟨n2, h2, _⟩ := GetConfigMapVolumes_some (some cm2) defaultConfigMapName2
      volumeName volumePath
    exact ⟨hm defaultSubPath, _, _, h1, h2, hm ""⟩

/-- Witness of C17: same name with different items, and same items with different names and
different default names. -/
theorem C17_source_and_mount_independent_witness :
    GetVolumeFromConfigMapConfig
        (some { Name := "cm", Items := [{ Key := "a", Path := "p1" }] }) "default-cm" "v"
      = GetVolumeFromConfigMapConfig (some { Name := "cm", Items := [] }) "default-cm" "v" ∧
    GetVolumeMountFromConfigMapConfig
        (some { Name := "cm", Items := [{ Key := "a", Path := "p1" }] }) "v" "/etc/conf" "d"
      = GetVolumeMountFromConfigMapConfig
        (some { Name := "", Items := [{ Key := "a", Path := "p1" }] }) "v" "/etc/conf" "d" :=
  ⟨(C17_source_and_mount_independent
      { Name := "cm", Items := [{ Key := "a", Path := "p1" }] } { Name := "cm", Items := [] }
      "default-cm" "other-cm" "v" "/etc/conf" "d").1 rfl,
   ((C17_source_and_mount_independent
      { Name := "cm", Items := [{ Key := "a", Path := "p1" }] }
      { Name := "", Items := [{ Key := "a", Path := "p1" }] }
      "default-cm" "other-cm" "v" "/etc/conf" "d").2.2 rfl).1⟩

end volume
